import Mathlib

/-!
Shallow embedding of the symbol-resolution core of `libs/libc/modlib/modlib_symbols.c`
(NuttX loadable-module subsystem), together with theorems settling the claims about it.

Machine integers are modelled as `Nat`/`Int`; byte strings as `List Nat`; the module
image as a list of bytes.  Fallible operations return `Option`/error codes; an
`Option.none` result of a whole operation models C undefined behaviour (out-of-bounds
array access) or a non-terminating configuration (a zero buffer increment).

External collaborators that are not part of the source file (bounded read, buffer
growth, registry traversal, dependency registration, built-in export accessor,
allocator) are modelled from the specification's interface descriptions; each such
definition is marked `Modelled from the spec`.
-/

namespace Modlib

/-- Error numbers used by the source file (returned negated). -/
def ENOENT : Int := 2

/-- Error number for a symbol with no name. -/
def ESRCH : Int := 3

/-- Error number for an I/O failure of the bounded-read collaborator. -/
def eioNum : Int := 5

/-- Error number for an allocation failure. -/
def ENOMEM : Int := 12

/-- Error number for a corrupt module image. -/
def EINVAL : Int := 22

/-- Error number for an unsupported (common-binding) symbol. -/
def ENOSYS : Int := 38

/-- Sentinel section index: undefined symbol. -/
def SHN_UNDEF : Nat := 0

/-- Sentinel section index: absolute symbol. -/
def SHN_ABS : Nat := 65521

/-- Sentinel section index: common symbol. -/
def SHN_COMMON : Nat := 65522

/-- Size in bytes of one on-disk symbol record (`sizeof(Elf_Sym)` for ELF32). -/
def elfSymSize : Nat := 16

/-- One parsed symbol-table entry (`Elf_Sym`): name offset into the string table,
value field, and section-index field. -/
structure Elf_Sym where
  st_name : Nat
  st_value : Nat
  st_shndx : Nat
deriving DecidableEq, Repr

/-- One parsed section header (`Elf_Shdr`): the fields the core consumes. -/
structure Elf_Shdr where
  sh_type : Nat
  sh_link : Nat
  sh_offset : Nat
  sh_size : Nat
  sh_addr : Nat
deriving DecidableEq, Repr

/-- Load-session state (`struct mod_loadinfo_s`): the growable read buffer with its
current capacity, the backing module image (whose length is `filelen`), and the
parsed section-header table. -/
structure mod_loadinfo_s where
  iobuffer : List Nat
  buflen : Nat
  file : List Nat
  shdr : List Elf_Shdr
deriving DecidableEq, Repr

/-- One entry of an export table (`struct symtab_s`).  The name is `none` when the
stored pointer is null (a failed duplication). -/
structure symtab_s where
  sym_name : Option (List Nat)
  sym_value : Nat
deriving DecidableEq, Repr

/-- A loaded module (`struct module_s`), restricted to the fields this core touches:
an identity (for dependency edges), the exported-symbol table pointer (`none` =
null), and the export count. -/
structure module_s where
  id : Nat
  exports : Option (List symtab_s)
  nexports : Nat
deriving DecidableEq, Repr

/-- Allocation and free events, used to account for the heap objects the export
table builder and teardown create and release. -/
inductive MEvt where
  | allocArr
  | allocName (j : Nat)
  | freeName (i : Nat)
  | freeArr
deriving DecidableEq, Repr

/-- Modelled from the spec: the bounded-read collaborator (`modlib_read`) fills a
buffer of `readlen` bytes from the module image at `offset`, or fails with an I/O
error when the range is not available. -/
def modlib_read (file : List Nat) (readlen offset : Nat) : Except Int (List Nat) :=
  if offset + readlen ≤ file.length then Except.ok ((file.drop offset).take readlen)
  else Except.error (-eioNum)

/-- Overwrite `chunk.length` bytes of `buf` starting at position `pos` (the effect of
reading into `&iobuffer[pos]`). -/
def writeBytes (buf : List Nat) (pos : Nat) (chunk : List Nat) : List Nat :=
  buf.take pos ++ chunk ++ buf.drop (pos + chunk.length)

/-- The C string held at the start of a byte buffer: bytes up to (not including) the
first NUL. -/
def cString (l : List Nat) : List Nat :=
  l.takeWhile (fun b => b != 0)

/-- The NUL-terminated name stored on disk at `offset` in the image. -/
def diskName (file : List Nat) (offset : Nat) : List Nat :=
  cString (file.drop offset)

/-- The read loop of `modlib_symname`, fuel-indexed.  One iteration mirrors one pass
of the C `for (;;)` loop: compute `readlen = buflen - bytesread`, clamp it at end of
file (failing with `-EINVAL` when the file offset is already at or past the end),
read the chunk into the buffer at `bytesread`, scan the chunk for a NUL, and
otherwise grow the buffer by `incr` and advance the file offset by `incr` (exactly
as the source does).  `none` means the fuel ran out, which only happens for
`incr = 0`. -/
def symnameLoop (incr : Nat) (li : mod_loadinfo_s) (offset bytesread : Nat) :
    Nat → Option (Int × mod_loadinfo_s)
  | 0 => none
  | fuel + 1 =>
    if li.file.length < offset + (li.buflen - bytesread) ∧ li.file.length ≤ offset then
      some (-EINVAL, li)
    else
      let readlen := if li.file.length < offset + (li.buflen - bytesread) then
                       li.file.length - offset
                     else li.buflen - bytesread
      match modlib_read li.file readlen offset with
      | Except.error e => some (e, li)
      | Except.ok chunk =>
        let li1 : mod_loadinfo_s := { li with iobuffer := writeBytes li.iobuffer bytesread chunk }
        if 0 ∈ chunk then
          some (0, li1)
        else
          let li2 : mod_loadinfo_s :=
            { li1 with iobuffer := li1.iobuffer ++ List.replicate incr 0,
                       buflen := li1.buflen + incr }
          symnameLoop incr li2 (offset + incr) (bytesread + readlen) fuel

/-- `modlib_symname`: materialize the NUL-terminated name of `sym` into the session's
read buffer.  Fails with `-ESRCH` when the symbol's name offset is zero; otherwise
runs the read loop from `sh_offset + st_name`.  The buffer-growth collaborator
(`modlib_reallocbuffer`) is modelled from the spec as always succeeding. -/
def modlib_symname (incr : Nat) (li : mod_loadinfo_s) (sym : Elf_Sym)
    (sh_offset : Nat) : Option (Int × mod_loadinfo_s) :=
  if sym.st_name = 0 then some (-ESRCH, li)
  else symnameLoop incr li (sh_offset + sym.st_name) 0 (li.file.length + 2)

/-- `modlib_readsym`: read the symbol record at `index` of the symbol-table section
`symtab`.  The bounds check is exactly the source's: reject a negative index or an
index strictly greater than `sh_size / sizeof(Elf_Sym)`.  On success the returned
bytes are the `elfSymSize` bytes read from the image. -/
def modlib_readsym (li : mod_loadinfo_s) (index : Int) (symtab : Elf_Shdr) :
    Int × Option (List Nat) :=
  if index < 0 ∨ index > ((symtab.sh_size / elfSymSize : Nat) : Int) then
    (-EINVAL, none)
  else
    match modlib_read li.file elfSymSize (symtab.sh_offset + elfSymSize * index.toNat) with
    | Except.error e => (e, none)
    | Except.ok bytes => (0, some bytes)

/-- Modelled from the spec: `symtab_findbyname` looks a name up in an export table of
`n` entries, returning the first entry whose name matches, and nothing when the
table pointer is null or no entry matches. -/
def symtab_findbyname (tbl : Option (List symtab_s)) (name : List Nat) (n : Nat) :
    Option symtab_s :=
  match tbl with
  | none => none
  | some l => (l.take n).find? (fun e => decide (e.sym_name = some name))

/-- `modlib_symcallback`: test whether module `m` exports `name`.  On a match the
dependency edge from the resolving module (`modpId`) to `m` is recorded (the
`modlib_depend` collaborator is modelled from the spec as successfully appending the
edge) and `SYM_FOUND` (1) is returned to stop the traversal; otherwise the carried
symbol slot is overwritten with the (null) lookup result and `SYM_NOT_FOUND` (0) is
returned. -/
def modlib_symcallback (modpId : Nat) (name : List Nat) (m : module_s)
    (s : Option symtab_s × List (Nat × Nat)) :
    Int × (Option symtab_s × List (Nat × Nat)) :=
  match symtab_findbyname m.exports name m.nexports with
  | some sy => (1, (some sy, s.2 ++ [(modpId, m.id)]))
  | none => (0, (none, s.2))

/-- Modelled from the spec: `modlib_registry_foreach` invokes the callback once per
currently loaded module, most recently loaded first (the head of the list), until
the callback returns a nonzero value — which is then returned — or the registry is
exhausted. -/
def modlib_registry_foreach (cb : module_s → (Option symtab_s × List (Nat × Nat)) →
    Int × (Option symtab_s × List (Nat × Nat))) :
    List module_s → (Option symtab_s × List (Nat × Nat)) →
    Int × (Option symtab_s × List (Nat × Nat))
  | [], s => (0, s)
  | m :: rest, s =>
    let r := cb m s
    if r.1 ≠ 0 then r else modlib_registry_foreach cb rest r.2

/-- `modlib_symvalue`: compute the value of `sym`, dispatching on its section-index
field.  `registry` is the loaded-module list (newest first) and `builtin` the
kernel's compiled export table (the `modlib_getsymtab` accessor, modelled from the
spec).  Returns the status, the updated symbol entry, the updated load state, and
the updated dependency-edge list; `none` models an out-of-bounds section-header
access (undefined behaviour in the source, which indexes `loadinfo->shdr` with the
raw section-index field). -/
def modlib_symvalue (modpId : Nat) (registry : List module_s)
    (builtin : List symtab_s) (incr : Nat) (li : mod_loadinfo_s) (sym : Elf_Sym)
    (sh_offset : Nat) (deps : List (Nat × Nat)) :
    Option (Int × Elf_Sym × mod_loadinfo_s × List (Nat × Nat)) :=
  if sym.st_shndx = SHN_COMMON then
    some (-ENOSYS, sym, li, deps)
  else if sym.st_shndx = SHN_ABS then
    some (0, sym, li, deps)
  else if sym.st_shndx = SHN_UNDEF then
    match modlib_symname incr li sym sh_offset with
    | none => none
    | some (ret, li1) =>
      if ret < 0 then some (ret, sym, li1, deps)
      else
        let name := cString li1.iobuffer
        let r := modlib_registry_foreach (modlib_symcallback modpId name) registry
                   (none, deps)
        if r.1 < 0 then some (r.1, sym, li1, r.2.2)
        else
          let symbol := match r.2.1 with
            | none => symtab_findbyname (some builtin) name builtin.length
            | some s => some s
          match symbol with
          | none => some (-ENOENT, sym, li1, r.2.2)
          | some s =>
            some (0, { sym with st_value := sym.st_value + s.sym_value }, li1, r.2.2)
  else
    match li.shdr.get? sym.st_shndx with
    | none => none
    | some sh => some (0, { sym with st_value := sym.st_value + sh.sh_addr }, li, deps)

/-- `modlib_freesymtab`: when the module's export reference is non-null, free the
name of each of the first `nexports` entries and then the array; the module record
itself is returned unchanged (the source never writes to `modp`).  `none` models the
out-of-bounds frees that occur when `nexports` exceeds the array length. -/
def modlib_freesymtab (m : module_s) : Option (module_s × List MEvt) :=
  match m.exports with
  | none => some (m, [])
  | some tbl =>
    if m.nexports ≤ tbl.length then
      some (m, (List.range m.nexports).map MEvt.freeName ++ [MEvt.freeArr])
    else none

/-- The per-symbol loop of `modlib_insertsymtab`: walk the symbol records, skipping
those with a zero name offset; for each qualifying record materialize its name via
`modlib_symname` (aborting with the error on failure) and append an export entry
whose name is the duplicated buffer string, or null when the duplication fails
(`strdupOk j` gives the outcome of the `j`-th `strdup`, which the source never
checks). -/
def insertLoop (strdupOk : Nat → Bool) (incr strOff : Nat) :
    List Elf_Sym → mod_loadinfo_s → Nat → List symtab_s → List MEvt →
    Option (Int × mod_loadinfo_s × List symtab_s × List MEvt)
  | [], li, _, acc, ev => some (0, li, acc, ev)
  | s :: rest, li, j, acc, ev =>
    if s.st_name = 0 then insertLoop strdupOk incr strOff rest li j acc ev
    else
      match modlib_symname incr li s strOff with
      | none => none
      | some (ret, li1) =>
        if ret < 0 then some (ret, li1, acc, ev)
        else
          if strdupOk j then
            insertLoop strdupOk incr strOff rest li1 (j + 1)
              (acc ++ [{ sym_name := some (cString li1.iobuffer), sym_value := s.st_value }])
              (ev ++ [MEvt.allocName j])
          else
            insertLoop strdupOk incr strOff rest li1 (j + 1)
              (acc ++ [{ sym_name := none, sym_value := s.st_value }]) ev

/-- `modlib_insertsymtab`: build the module's export table from the symbol-table
section `shdr` and the parsed symbol records `syms`.  An existing export table is
torn down first (with a diagnostic).  The qualifying symbols (non-zero name offset)
are counted; zero of them skips the whole build and returns success.  Otherwise the
array is allocated (`allocOk` gives the allocator outcome, modelled from the spec),
the loop fills it, and a name-read failure frees the array and clears the module's
export reference before propagating.  `none` models reading symbol records past the
end of the caller's array or dereferencing an out-of-range string-table link. -/
def modlib_insertsymtab (allocOk : Bool) (strdupOk : Nat → Bool) (incr : Nat)
    (m : module_s) (li : mod_loadinfo_s) (shdr : Elf_Shdr) (syms : List Elf_Sym) :
    Option (Int × module_s × mod_loadinfo_s × List MEvt) :=
  match (match m.exports with
         | none => some (m, ([] : List MEvt))
         | some _ => modlib_freesymtab m) with
  | none => none
  | some (m0, ev0) =>
    let nSym := shdr.sh_size / elfSymSize
    if syms.length < nSym then none
    else
      let symCount := ((syms.take nSym).filter (fun s => s.st_name != 0)).length
      if symCount = 0 then some (0, m0, li, ev0)
      else if allocOk then
        match li.shdr.get? shdr.sh_link with
        | none => none
        | some strTab =>
          match insertLoop strdupOk incr strTab.sh_offset (syms.take nSym) li 0 []
                  (ev0 ++ [MEvt.allocArr]) with
          | none => none
          | some (ret, li1, acc, ev) =>
            if ret < 0 then
              some (ret, { m0 with exports := none, nexports := symCount }, li1,
                    ev ++ [MEvt.freeArr])
            else
              some (0, { m0 with exports := some acc, nexports := symCount }, li1, ev)
      else
        some (-ENOMEM, { m0 with exports := none }, li, ev0)

/-! Concrete states used by the closed theorems and witnesses below. -/

/-- A 32-byte module image whose symbol-table section holds exactly one 16-byte
record. -/
def c1li : mod_loadinfo_s :=
  { iobuffer := [], buflen := 0, file := List.range 32, shdr := [] }

/-- Symbol-table section descriptor with `sh_size = 16`, i.e. entry count 1. -/
def c1st : Elf_Shdr :=
  { sh_type := 2, sh_link := 0, sh_offset := 0, sh_size := 16, sh_addr := 0 }

/-- A module owning a one-entry export table. -/
def c2mod : module_s :=
  { id := 1, exports := some [{ sym_name := some [97], sym_value := 4 }], nexports := 1 }

/-- A module whose export reference is null. -/
def c2none : module_s := { id := 2, exports := none, nexports := 0 }

/-- Load state for the name `"foo"` stored at file offset 1, fitting the buffer. -/
def w3li : mod_loadinfo_s :=
  { iobuffer := [0, 0, 0, 0, 0, 0, 0, 0], buflen := 8,
    file := [0, 102, 111, 111, 0], shdr := [] }

/-- The load state after the streaming reader has materialized `"foo"`. -/
def w3li2 : mod_loadinfo_s :=
  { iobuffer := [102, 111, 111, 0, 0, 0, 0, 0], buflen := 8,
    file := [0, 102, 111, 111, 0], shdr := [] }

/-- An undefined symbol whose name offset points at `"foo"`. -/
def w3sym : Elf_Sym := { st_name := 1, st_value := 10, st_shndx := 0 }

/-- The most recently loaded module; exports `"foo"` with value 7. -/
def w3m1 : module_s :=
  { id := 1, exports := some [{ sym_name := some [102, 111, 111], sym_value := 7 }],
    nexports := 1 }

/-- An older module also exporting `"foo"`, with a different value. -/
def w3m2 : module_s :=
  { id := 2, exports := some [{ sym_name := some [102, 111, 111], sym_value := 9 }],
    nexports := 1 }

/-- Load state for the name `"bar"` stored at file offset 1. -/
def c4li : mod_loadinfo_s :=
  { iobuffer := [0, 0, 0, 0, 0, 0, 0, 0], buflen := 8,
    file := [0, 98, 97, 114, 0], shdr := [] }

/-- The load state after the streaming reader has materialized `"bar"`. -/
def c4li2 : mod_loadinfo_s :=
  { iobuffer := [98, 97, 114, 0, 0, 0, 0, 0], buflen := 8,
    file := [0, 98, 97, 114, 0], shdr := [] }

/-- An undefined symbol whose name offset points at `"bar"`. -/
def c4sym : Elf_Sym := { st_name := 1, st_value := 10, st_shndx := 0 }

/-- A loaded module that does not export `"bar"`. -/
def c4m : module_s :=
  { id := 4, exports := some [{ sym_name := some [122], sym_value := 9 }], nexports := 1 }

/-- A built-in export table containing `"bar"` with value 21. -/
def c4b : List symtab_s := [{ sym_name := some [98, 97, 114], sym_value := 21 }]

/-- Load state exhibiting the chunking slip of the streaming reader: buffer capacity
2, the name `"abc"` on disk at offset 1, followed by a non-NUL byte. -/
def bugLi : mod_loadinfo_s :=
  { iobuffer := [0, 0], buflen := 2, file := [120, 97, 98, 99, 0, 9], shdr := [] }

/-- An undefined symbol whose name offset points at `"abc"` in `bugLi`. -/
def bugSym : Elf_Sym := { st_name := 1, st_value := 100, st_shndx := 0 }

/-- The load state after the reader has run once on `bugLi`: the buffer holds the
garbled string `"abbc"` and has grown to capacity 5. -/
def bugLi1 : mod_loadinfo_s :=
  { iobuffer := [97, 98, 98, 99, 0], buflen := 5, file := [120, 97, 98, 99, 0, 9],
    shdr := [] }

/-- The load state after a second run of the reader on `bugLi1`: the whole name now
fits in one chunk and the buffer holds `"abc"`. -/
def bugLi2 : mod_loadinfo_s :=
  { iobuffer := [97, 98, 99, 0, 9], buflen := 5, file := [120, 97, 98, 99, 0, 9],
    shdr := [] }

/-- A loaded module exporting the garbled string `"abbc"` with value 7. -/
def c8m1 : module_s :=
  { id := 1, exports := some [{ sym_name := some [97, 98, 98, 99], sym_value := 7 }],
    nexports := 1 }

/-- A built-in table exporting the true name `"abc"` with value 50. -/
def c8b : List symtab_s := [{ sym_name := some [97, 98, 99], sym_value := 50 }]

/-- A freshly created module: no export table yet. -/
def c6mod : module_s := { id := 3, exports := none, nexports := 0 }

/-- Load state whose image holds the name `"A"` at offset 1 and whose section-header
table links the symbol table (index 0 is reserved) to a string table at offset 0. -/
def c6li : mod_loadinfo_s :=
  { iobuffer := [0, 0, 0, 0], buflen := 4, file := [0, 65, 0],
    shdr := [{ sh_type := 0, sh_link := 0, sh_offset := 0, sh_size := 0, sh_addr := 0 },
             { sh_type := 3, sh_link := 0, sh_offset := 0, sh_size := 3, sh_addr := 0 }] }

/-- A symbol with a readable name (`"A"` at string-table offset 1). -/
def c6s0 : Elf_Sym := { st_name := 1, st_value := 11, st_shndx := 1 }

/-- A symbol whose name offset points past the end of the file, so reading its name
fails with corrupt-format. -/
def c6s1 : Elf_Sym := { st_name := 100, st_value := 12, st_shndx := 1 }

/-- A two-entry symbol-table section descriptor (`sh_size = 32`). -/
def c6shdrA : Elf_Shdr :=
  { sh_type := 2, sh_link := 1, sh_offset := 0, sh_size := 32, sh_addr := 0 }

/-- A one-entry symbol-table section descriptor (`sh_size = 16`). -/
def c6shdrB : Elf_Shdr :=
  { sh_type := 2, sh_link := 1, sh_offset := 0, sh_size := 16, sh_addr := 0 }

/-- The module state returned by the builder after the failing run: export
reference cleared, count left at the counted value. -/
def c6modA : module_s := { id := 3, exports := none, nexports := 2 }

/-- The load state after the builder's failing run: the buffer holds `"A"`. -/
def c6liA : mod_loadinfo_s :=
  { iobuffer := [65, 0, 0, 0], buflen := 4, file := [0, 65, 0],
    shdr := [{ sh_type := 0, sh_link := 0, sh_offset := 0, sh_size := 0, sh_addr := 0 },
             { sh_type := 3, sh_link := 0, sh_offset := 0, sh_size := 3, sh_addr := 0 }] }

/-- A symbol with a zero name offset: it does not qualify for export. -/
def c7sym : Elf_Sym := { st_name := 0, st_value := 5, st_shndx := 1 }

/-- Load state with two parsed section headers; the one at index 1 has base
address 42. -/
def c9li : mod_loadinfo_s :=
  { iobuffer := [], buflen := 0, file := [],
    shdr := [{ sh_type := 0, sh_link := 0, sh_offset := 0, sh_size := 0, sh_addr := 0 },
             { sh_type := 1, sh_link := 0, sh_offset := 0, sh_size := 0, sh_addr := 42 }] }

/-- Load state with an empty section-header table. -/
def c9liEmpty : mod_loadinfo_s :=
  { iobuffer := [], buflen := 0, file := [], shdr := [] }

/-- A section-relative symbol referring to section index 1. -/
def c9sym : Elf_Sym := { st_name := 0, st_value := 5, st_shndx := 1 }

/-- A common-binding symbol (section-index sentinel `SHN_COMMON`). -/
def c10sym : Elf_Sym := { st_name := 1, st_value := 3, st_shndx := 65522 }

/-- An arbitrary load state for the common-binding error path. -/
def c10li : mod_loadinfo_s :=
  { iobuffer := [0], buflen := 1, file := [0, 65, 0], shdr := [] }

/-- C1.  The Indexed Symbol Reader's bounds check is off by one: for a section of
entry count 1 (`sh_size = 16`), the index 1 — equal to the entry count, which the
claim says must fail with corrupt-format — passes the check (`index > count`, not
`≥`) and the reader returns success, having read the 16 bytes that lie past the end
of the section.  A negative index and an index strictly greater than the count do
fail, and index 0 succeeds with the first entry. -/
theorem readsym_index_eq_count_accepted :
    modlib_readsym c1li 1 c1st =
      (0, some [16, 17, 18, 19, 20, 21, 22, 23, 24, 25, 26, 27, 28, 29, 30, 31]) ∧
    (1 : Int) ≥ ((c1st.sh_size / elfSymSize : Nat) : Int) ∧
    modlib_readsym c1li 0 c1st =
      (0, some [0, 1, 2, 3, 4, 5, 6, 7, 8, 9, 10, 11, 12, 13, 14, 15]) ∧
    modlib_readsym c1li (-1) c1st = (-EINVAL, none) ∧
    modlib_readsym c1li 2 c1st = (-EINVAL, none) := by
  decide

/-- C2 counterexample.  Export Table Teardown does not clear the module's reference
to its export table: on a module owning a one-entry table it frees the name and the
array but returns the module record unchanged, its export reference still non-null
— so the claim's "afterwards the module's reference to its export table is cleared
(null)" is false, and a second call would free the same memory again. -/
theorem freesymtab_reference_not_cleared :
    modlib_freesymtab c2mod = some (c2mod, [MEvt.freeName 0, MEvt.freeArr]) ∧
    c2mod.exports ≠ none := by
  decide

/-- C2 amended.  Export Table Teardown frees the name of each of the first
`nexports` entries and then the array itself when the module's export reference is
non-null, and is a no-op when the reference is null; in both cases the module
record — in particular its export reference — is left unchanged. -/
theorem freesymtab_behavior (m : module_s) :
    (m.exports = none → modlib_freesymtab m = some (m, [])) ∧
    (∀ tbl, m.exports = some tbl → m.nexports ≤ tbl.length →
      modlib_freesymtab m =
        some (m, (List.range m.nexports).map MEvt.freeName ++ [MEvt.freeArr])) := by
  constructor
  · intro h
    simp [modlib_freesymtab, h]
  · intro tbl h hle
    simp [modlib_freesymtab, h, hle]

/-- Witness for C2's amended theorem at two concrete modules: a null reference is a
no-op, and a one-entry table yields one name free followed by the array free, with
the module unchanged. -/
theorem freesymtab_behavior_witness :
    modlib_freesymtab c2none = some (c2none, []) ∧
    modlib_freesymtab c2mod = some (c2mod, [MEvt.freeName 0, MEvt.freeArr]) :=
  ⟨(freesymtab_behavior c2none).1 rfl,
   (freesymtab_behavior c2mod).2 [{ sym_name := some [97], sym_value := 4 }] rfl
     (by decide)⟩

/-- C5.  The Streaming Name Reader garbles names that do not fit the initial buffer:
with buffer capacity 2, increment 1, and the name `"abc"` on disk at offset 1, the
reader returns success but the buffer holds `"abbc"` — not the on-disk bytes up to
the terminator — because after each growth the file offset is advanced by the fixed
increment instead of by the number of bytes just read. -/
theorem symname_garbles_long_name :
    modlib_symname 1 bugLi bugSym 0 = some (0, bugLi1) ∧
    cString bugLi1.iobuffer = [97, 98, 98, 99] ∧
    diskName bugLi.file 1 = [97, 98, 99] ∧
    cString bugLi1.iobuffer ≠ diskName bugLi.file 1 := by
  decide

/-- C6 counterexample.  Two runs of the Export Table Builder on a fresh module:
(a) when reading the second qualifying symbol's name fails after the first name was
already duplicated, the builder frees the array and clears the export reference but
never frees the duplicated name — the allocation `allocName 0` has no matching
`freeName` in the event trace; (b) when duplicating the only name fails, the
builder does not detect it: it returns success and attaches a table whose entry
has a null name. -/
theorem insertsymtab_leaks_names_and_ignores_strdup :
    (modlib_insertsymtab true (fun _ => true) 1 c6mod c6li c6shdrA [c6s0, c6s1] =
      some (-EINVAL, c6modA, c6liA,
            [MEvt.allocArr, MEvt.allocName 0, MEvt.freeArr]) ∧
     ∀ i, MEvt.freeName i ∉ [MEvt.allocArr, MEvt.allocName 0, MEvt.freeArr]) ∧
    modlib_insertsymtab true (fun _ => false) 1 c6mod c6li c6shdrB [c6s0] =
      some (0, { id := 3, exports := some [{ sym_name := none, sym_value := 11 }],
                 nexports := 1 }, c6liA, [MEvt.allocArr]) := by
  refine ⟨⟨by decide, ?_⟩, by decide⟩
  intro i
  simp [MEvt.freeName]

/-- C7 counterexample.  On a symbol-table section whose only symbol has a zero name
offset, the Export Table Builder returns success but attaches nothing: the fresh
module's export reference is still null (`none`), not a present-but-empty table of
length zero, and no allocation takes place. -/
theorem insertsymtab_zero_live_absent_table :
    modlib_insertsymtab true (fun _ => true) 1 c6mod c6li c6shdrB [c7sym] =
      some (0, c6mod, c6li, []) ∧
    c6mod.exports = none := by
  decide

/-- C8.  Resolving the same undefined symbol twice with identical registry, export
tables, and built-in table yields different values: the first resolution reads the
garbled name `"abbc"` (buffer capacity 2), matches a loaded module, and yields
`100 + 7 = 107`; the first call grows the buffer to capacity 5, so the second
resolution reads the true name `"abc"` in one chunk, misses every loaded module,
falls back to the built-in table, and yields `100 + 50 = 150`. -/
theorem symvalue_not_idempotent :
    modlib_symvalue 5 [c8m1] c8b 1 bugLi bugSym 0 [] =
      some (0, { bugSym with st_value := 107 }, bugLi1, [(5, 1)]) ∧
    modlib_symvalue 5 [c8m1] c8b 1 bugLi1 bugSym 0 [(5, 1)] =
      some (0, { bugSym with st_value := 150 }, bugLi2, [(5, 1)]) ∧
    (107 : Nat) ≠ 150 :=
  ⟨rfl, rfl, by decide⟩

/-- Traversing a registry none of whose modules exports `n` visits every module and
returns "not found" with the dependency-edge list untouched. -/
theorem foreach_all_none (modpId : Nat) (n : List Nat) (deps : List (Nat × Nat)) :
    ∀ regs : List module_s,
      (∀ m ∈ regs, symtab_findbyname m.exports n m.nexports = none) →
      modlib_registry_foreach (modlib_symcallback modpId n) regs (none, deps) =
        (0, (none, deps)) := by
  intro regs
  induction regs with
  | nil => intro _; rfl
  | cons m rest ih =>
    intro h
    have hm : symtab_findbyname m.exports n m.nexports = none :=
      h m (List.mem_cons_self m rest)
    have hrest : ∀ m ∈ rest, symtab_findbyname m.exports n m.nexports = none :=
      fun x hx => h x (List.mem_cons_of_mem m hx)
    simp only [modlib_registry_foreach, modlib_symcallback, hm]
    simpa using ih hrest

/-- C3.  When the name the Streaming Name Reader materializes for an undefined
symbol is exported by the two most recently loaded modules (and possibly more),
resolution returns the export of the most recently loaded one — the head of the
registry — adds its value to the symbol's value, and records exactly one dependency
edge, from the resolving module to that winning module; the traversal never reaches
the other exporters. -/
theorem symvalue_most_recent_module_wins
    (modpId incr sh_offset : Nat) (li li1 : mod_loadinfo_s) (sym : Elf_Sym)
    (deps : List (Nat × Nat)) (n : List Nat) (m1 m2 : module_s)
    (rest : List module_s) (e1 : symtab_s) (builtin : List symtab_s)
    (hundef : sym.st_shndx = SHN_UNDEF)
    (hname : modlib_symname incr li sym sh_offset = some (0, li1))
    (hbuf : cString li1.iobuffer = n)
    (h1 : symtab_findbyname m1.exports n m1.nexports = some e1)
    (_h2 : symtab_findbyname m2.exports n m2.nexports ≠ none) :
    modlib_symvalue modpId (m1 :: m2 :: rest) builtin incr li sym sh_offset deps =
      some (0, { sym with st_value := sym.st_value + e1.sym_value }, li1,
            deps ++ [(modpId, m1.id)]) := by
  have hc : sym.st_shndx ≠ SHN_COMMON := by rw [hundef]; decide
  have ha : sym.st_shndx ≠ SHN_ABS := by rw [hundef]; decide
  simp only [modlib_symvalue, hc, ha, hundef, hname, if_false, if_true, if_neg,
    reduceIte]
  simp only [modlib_registry_foreach, modlib_symcallback, hbuf, h1]
  norm_num [SHN_UNDEF, SHN_ABS, SHN_COMMON]

/-- Witness for C3: with `"foo"` exported by both loaded modules (values 7 and 9,
newest first), resolution yields the newest module's value 7 and one edge to it. -/
theorem symvalue_most_recent_module_wins_witness :
    modlib_symvalue 9 [w3m1, w3m2] [] 1 w3li w3sym 0 [] =
      some (0, { w3sym with st_value := w3sym.st_value + 7 }, w3li2, [(9, 1)]) :=
  symvalue_most_recent_module_wins 9 1 0 w3li w3li2 w3sym [] [102, 111, 111] w3m1
    w3m2 [] { sym_name := some [102, 111, 111], sym_value := 7 } [] rfl (by decide)
    (by decide) (by decide) (by decide)

/-- C4.  When no loaded module exports the name the reader materialized for an
undefined symbol: if the built-in table contains it, resolution succeeds, adds the
matched export's value to the symbol's value, and records no dependency edge; if
the built-in table also lacks it, resolution fails with unresolved-external
(`-ENOENT`) and records no dependency edge. -/
theorem symvalue_builtin_fallback
    (modpId incr sh_offset : Nat) (li li1 : mod_loadinfo_s) (sym : Elf_Sym)
    (deps : List (Nat × Nat)) (n : List Nat) (registry : List module_s)
    (builtin : List symtab_s)
    (hundef : sym.st_shndx = SHN_UNDEF)
    (hname : modlib_symname incr li sym sh_offset = some (0, li1))
    (hbuf : cString li1.iobuffer = n)
    (hnomod : ∀ m ∈ registry, symtab_findbyname m.exports n m.nexports = none) :
    (∀ e, symtab_findbyname (some builtin) n builtin.length = some e →
      modlib_symvalue modpId registry builtin incr li sym sh_offset deps =
        some (0, { sym with st_value := sym.st_value + e.sym_value }, li1, deps)) ∧
    (symtab_findbyname (some builtin) n builtin.length = none →
      modlib_symvalue modpId registry builtin incr li sym sh_offset deps =
        some (-ENOENT, sym, li1, deps)) := by
  have hc : sym.st_shndx ≠ SHN_COMMON := by rw [hundef]; decide
  have ha : sym.st_shndx ≠ SHN_ABS := by rw [hundef]; decide
  have hfe := foreach_all_none modpId n deps registry hnomod
  constructor
  · intro e he
    simp only [modlib_symvalue, hc, ha, hundef, hname, if_false, if_true, if_neg,
      reduceIte]
    simp only [hbuf, hfe, he]
    norm_num [SHN_UNDEF, SHN_ABS, SHN_COMMON]
  · intro he
    simp only [modlib_symvalue, hc, ha, hundef, hname, if_false, if_true, if_neg,
      reduceIte]
    simp only [hbuf, hfe, he]
    norm_num [SHN_UNDEF, SHN_ABS, SHN_COMMON]

/-- Witness for C4: with one loaded module that does not export `"bar"` and a
built-in table that does (value 21), resolution yields `10 + 21` with no new edge. -/
theorem symvalue_builtin_fallback_witness :
    modlib_symvalue 9 [c4m] c4b 1 c4li c4sym 0 [] =
      some (0, { c4sym with st_value := c4sym.st_value + 21 }, c4li2, []) :=
  (symvalue_builtin_fallback 9 1 0 c4li c4li2 c4sym [] [98, 97, 114] [c4m] c4b rfl
      (by decide) (by decide) (by decide)).1
    { sym_name := some [98, 97, 114], sym_value := 21 } (by decide)

/-- C9.  For a symbol whose section-index field is a regular index (none of the
undefined/absolute/common sentinels), the resolver indexes the parsed section-header
array with that field and performs no validation against the section count: when
the field is below the number of parsed headers the access is in bounds and the
section's base address is added to the symbol's value; when it is not, the access
is out of bounds (undefined behaviour, `none`). -/
theorem symvalue_section_index_unchecked
    (modpId : Nat) (registry : List module_s) (builtin : List symtab_s)
    (incr : Nat) (li : mod_loadinfo_s) (sym : Elf_Sym) (sh_offset : Nat)
    (deps : List (Nat × Nat))
    (hu : sym.st_shndx ≠ SHN_UNDEF) (ha : sym.st_shndx ≠ SHN_ABS)
    (hc : sym.st_shndx ≠ SHN_COMMON) :
    (∀ h : sym.st_shndx < li.shdr.length,
      modlib_symvalue modpId registry builtin incr li sym sh_offset deps =
        some (0, { sym with
                   st_value := sym.st_value + (li.shdr.get ⟨sym.st_shndx, h⟩).sh_addr },
              li, deps)) ∧
    (li.shdr.length ≤ sym.st_shndx →
      modlib_symvalue modpId registry builtin incr li sym sh_offset deps = none) := by
  constructor
  · intro h
    simp only [modlib_symvalue, hc, ha, hu, if_false, reduceIte]
    rw [List.get?_eq_get h]
  · intro h
    simp only [modlib_symvalue, hc, ha, hu, if_false, reduceIte]
    rw [List.get?_eq_none.mpr h]

/-- Witness for C9 at concrete inputs: with two parsed section headers, a symbol
referring to section 1 (base address 42) resolves to `5 + 42` in bounds, and the
same symbol against an empty section-header table makes the access undefined. -/
theorem symvalue_section_index_unchecked_witness :
    modlib_symvalue 0 [] [] 1 c9li c9sym 0 [] =
      some (0, { c9sym with st_value := c9sym.st_value + 42 }, c9li, []) ∧
    modlib_symvalue 0 [] [] 1 c9liEmpty c9sym 0 [] = none :=
  ⟨(symvalue_section_index_unchecked 0 [] [] 1 c9li c9sym 0 [] (by decide)
      (by decide) (by decide)).1 (by decide),
   (symvalue_section_index_unchecked 0 [] [] 1 c9liEmpty c9sym 0 [] (by decide)
      (by decide) (by decide)).2 (by decide)⟩

/-- C10.  Every defined error return of the resolver leaves the symbol entry it was
given unchanged: whenever `modlib_symvalue` returns a negative status, the returned
symbol record equals the input record — the value field is only mutated on the
success paths. -/
theorem symvalue_error_leaves_sym_unchanged
    (modpId : Nat) (registry : List module_s) (builtin : List symtab_s)
    (incr : Nat) (li : mod_loadinfo_s) (sym : Elf_Sym) (sh_offset : Nat)
    (deps : List (Nat × Nat)) (ret : Int) (sym1 : Elf_Sym)
    (li1 : mod_loadinfo_s) (deps1 : List (Nat × Nat))
    (h : modlib_symvalue modpId registry builtin incr li sym sh_offset deps =
      some (ret, sym1, li1, deps1))
    (hret : ret < 0) : sym1 = sym := by
  unfold modlib_symvalue at h
  split at h
  · simp only [Option.some.injEq, Prod.mk.injEq] at h
    exact h.2.1.symm
  · split at h
    · simp only [Option.some.injEq, Prod.mk.injEq] at h
      rw [← h.1] at hret
      exact absurd hret (by decide)
    · split at h
      · split at h
        · exact absurd h (by simp)
        · rename_i p heq
          split at h
          · simp only [Option.some.injEq, Prod.mk.injEq] at h
            exact h.2.1.symm
          · dsimp only at h
            split at h
            · simp only [Option.some.injEq, Prod.mk.injEq] at h
              exact h.2.1.symm
            · split at h
              · simp only [Option.some.injEq, Prod.mk.injEq] at h
                exact h.2.1.symm
              · simp only [Option.some.injEq, Prod.mk.injEq] at h
                rw [← h.1] at hret
                exact absurd hret (by decide)
      · split at h
        · exact absurd h (by simp)
        · simp only [Option.some.injEq, Prod.mk.injEq] at h
          rw [← h.1] at hret
          exact absurd hret (by decide)

/-- Witness for C10 at a concrete input: a common-binding symbol fails with
`-ENOSYS` and is returned unchanged. -/
theorem symvalue_error_leaves_sym_unchanged_witness :
    modlib_symvalue 0 [] [] 1 c10li c10sym 0 [] =
      some (-ENOSYS, c10sym, c10li, []) ∧ c10sym = c10sym :=
  ⟨by decide,
   symvalue_error_leaves_sym_unchanged 0 [] [] 1 c10li c10sym 0 [] (-ENOSYS) c10sym
     c10li [] (by decide) (by decide)⟩

/-- The builder's per-symbol loop only ever appends name-duplication allocation
events to the event trace it is given. -/
theorem insertLoop_events (strdupOk : Nat → Bool) (incr strOff : Nat) :
    ∀ (syms : List Elf_Sym) (li : mod_loadinfo_s) (j : Nat) (acc : List symtab_s)
      (ev : List MEvt) (ret : Int) (li1 : mod_loadinfo_s) (acc1 : List symtab_s)
      (ev1 : List MEvt),
      insertLoop strdupOk incr strOff syms li j acc ev = some (ret, li1, acc1, ev1) →
      ∃ suf, ev1 = ev ++ suf ∧ ∀ x ∈ suf, ∃ k, x = MEvt.allocName k := by
  intro syms
  induction syms with
  | nil =>
    intro li j acc ev ret li1 acc1 ev1 h
    simp only [insertLoop, Option.some.injEq, Prod.mk.injEq] at h
    exact ⟨[], by simp [← h.2.2.2], by simp⟩
  | cons s rest ih =>
    intro li j acc ev ret li1 acc1 ev1 h
    simp only [insertLoop] at h
    split at h
    · exact ih li j acc ev ret li1 acc1 ev1 h
    · split at h
      · exact absurd h (by simp)
      · rename_i p heq
        split at h
        · simp only [Option.some.injEq, Prod.mk.injEq] at h
          exact ⟨[], by simp [← h.2.2.2], by simp⟩
        · split at h
          · obtain ⟨suf, hsuf, hall⟩ := ih _ _ _ _ _ _ _ _ h
            refine ⟨[MEvt.allocName j] ++ suf, by simpa using hsuf, ?_⟩
            intro x hx
            rcases List.mem_append.mp hx with hx | hx
            · exact ⟨j, by simpa using hx⟩
            · exact hall x hx
          · exact ih _ _ _ _ _ _ _ _ h

/-- C6 amended.  On a freshly created module (no prior export table), every failing
step the builder detects — array allocation failure or a name-read failure partway
through — is fatal and propagated with no partial export table left attached: the
module's export reference is null on return, and the export array, if it was
allocated, is freed.  Name strings duplicated before the failure, however, are
never freed by the builder (the trace contains no name-free event). -/
theorem insertsymtab_error_cleanup
    (allocOk : Bool) (strdupOk : Nat → Bool) (incr : Nat) (m : module_s)
    (li : mod_loadinfo_s) (shdr : Elf_Shdr) (syms : List Elf_Sym)
    (ret : Int) (m1 : module_s) (li1 : mod_loadinfo_s) (ev : List MEvt)
    (hfresh : m.exports = none)
    (h : modlib_insertsymtab allocOk strdupOk incr m li shdr syms =
      some (ret, m1, li1, ev))
    (hret : ret < 0) :
    m1.exports = none ∧ (MEvt.allocArr ∈ ev → MEvt.freeArr ∈ ev) ∧
      ∀ i, MEvt.freeName i ∉ ev := by
  unfold modlib_insertsymtab at h
  rw [hfresh] at h
  simp only [] at h
  split at h
  · exact absurd h (by simp)
  · split at h
    · simp only [Option.some.injEq, Prod.mk.injEq] at h
      rw [← h.1] at hret
      exact absurd hret (by decide)
    · split at h
      · split at h
        · exact absurd h (by simp)
        · split at h
          · exact absurd h (by simp)
          · rename_i p heq
            split at h
            · obtain ⟨suf, hsuf, hall⟩ :=
                insertLoop_events strdupOk incr _ _ _ _ _ _ _ _ _ _ heq
              simp only [Option.some.injEq, Prod.mk.injEq] at h
              refine ⟨by rw [← h.2.1], ?_, ?_⟩
              · intro _
                rw [← h.2.2.2]
                simp
              · intro i
                rw [← h.2.2.2, hsuf]
                simp only [List.nil_append, List.mem_append, List.mem_cons,
                  List.mem_singleton]
                rintro ((hc | hc) | hc)
                · exact absurd hc (by simp)
                · obtain ⟨k, hk⟩ := hall _ hc
                  exact absurd hk (by simp)
                · exact absurd hc (by simp)
            · simp only [Option.some.injEq, Prod.mk.injEq] at h
              rw [← h.1] at hret
              exact absurd hret (by decide)
      · simp only [Option.some.injEq, Prod.mk.injEq] at h
        refine ⟨by rw [← h.2.1], ?_, ?_⟩
        · intro hmem
          rw [← h.2.2.2] at hmem
          exact absurd hmem (by simp)
        · intro i
          rw [← h.2.2.2]
          simp

/-- Witness for C6's amended theorem at the concrete failing run: the second
symbol's name read fails, the builder returns `-EINVAL` with the export reference
cleared, the array freed, and no name ever freed. -/
theorem insertsymtab_error_cleanup_witness :
    c6modA.exports = none ∧
    (MEvt.allocArr ∈ [MEvt.allocArr, MEvt.allocName 0, MEvt.freeArr] →
      MEvt.freeArr ∈ [MEvt.allocArr, MEvt.allocName 0, MEvt.freeArr]) ∧
    ∀ i, MEvt.freeName i ∉ [MEvt.allocArr, MEvt.allocName 0, MEvt.freeArr] :=
  insertsymtab_error_cleanup true (fun _ => true) 1 c6mod c6li c6shdrA [c6s0, c6s1]
    (-EINVAL) c6modA c6liA [MEvt.allocArr, MEvt.allocName 0, MEvt.freeArr] rfl
    (by decide) (by decide)

/-- C7 amended.  On a freshly created module, a symbol-table section in which no
symbol has a non-zero name offset makes the builder succeed while attaching
nothing: it returns status 0 with the module record untouched — the export
reference still null — the load state untouched, and no allocation performed. -/
theorem insertsymtab_no_live_symbols
    (allocOk : Bool) (strdupOk : Nat → Bool) (incr : Nat) (m : module_s)
    (li : mod_loadinfo_s) (shdr : Elf_Shdr) (syms : List Elf_Sym)
    (hfresh : m.exports = none)
    (hlen : shdr.sh_size / elfSymSize ≤ syms.length)
    (hzero : ∀ s ∈ syms.take (shdr.sh_size / elfSymSize), s.st_name = 0) :
    modlib_insertsymtab allocOk strdupOk incr m li shdr syms = some (0, m, li, []) := by
  have hfil : (syms.take (shdr.sh_size / elfSymSize)).filter
      (fun s => s.st_name != 0) = [] := by
    rw [List.filter_eq_nil_iff]
    intro a ha
    simp [hzero a ha]
  unfold modlib_insertsymtab
  rw [hfresh]
  simp only []
  rw [if_neg (by omega), hfil]
  simp

/-- Witness for C7's amended theorem at the concrete input: a one-entry section
whose symbol has name offset zero leaves the fresh module untouched with status 0. -/
theorem insertsymtab_no_live_symbols_witness :
    modlib_insertsymtab true (fun _ => true) 1 c6mod c6li c6shdrB [c7sym] =
      some (0, c6mod, c6li, []) :=
  insertsymtab_no_live_symbols true (fun _ => true) 1 c6mod c6li c6shdrB [c7sym] rfl
    (by decide) (by decide)

end Modlib
